import Mathlib

/-!
Shallow embedding of the LegalEase AI backend relay (src/backend/main.py).

The backend is a FastAPI app with four endpoints that forward requests to
external Google cloud services (Vertex AI generative models and Cloud
Text-to-Speech).  The external services are modelled as oracles: each
handler takes the outcome of its external call as an explicit argument
(an `Except` value for calls that can raise, a list of stream events for
streaming calls), and the handler definitions below reproduce exactly the
pure glue logic of the Python code: prompt construction, language-code
lookup, branching on empty OCR text, response payload construction, and
exception-to-response conversion.
-/

set_option linter.unusedVariables false

namespace LegalEase

/-! Pydantic request models (src/backend/main.py lines 15-38). -/

structure AnalysisRequest where
  document : String
  language : String

structure ImageRequest where
  image_data : String
  language : String

structure ChatPart where
  text : String

structure ChatMessage where
  role : String
  parts : List ChatPart

structure ChatRequest where
  document : String
  history : List ChatMessage
  question : String
  language : String

structure TTSRequest where
  text : String
  language : String

/-- FastAPI HTTPException as raised by the handlers: a status code and a detail string. -/
structure HTTPException where
  status_code : Nat
  detail : String
  deriving DecidableEq, Repr

/-! Base64 encoding (Python base64.b64encode over the audio bytes).
Bytes are modelled as natural numbers below 256. -/

def base64_alphabet : List Char :=
  "ABCDEFGHIJKLMNOPQRSTUVWXYZabcdefghijklmnopqrstuvwxyz0123456789+/".data

def b64_char (n : Nat) : Char :=
  base64_alphabet.getD n '='

def b64encode_groups : List Nat → List Char
  | [] => []
  | [a] =>
      [b64_char (a / 4), b64_char (a % 4 * 16), '=', '=']
  | [a, b] =>
      [b64_char (a / 4), b64_char (a % 4 * 16 + b / 16), b64_char (b % 16 * 4), '=']
  | a :: b :: c :: rest =>
      b64_char (a / 4) :: b64_char (a % 4 * 16 + b / 16) ::
        b64_char (b % 16 * 4 + c / 64) :: b64_char (c % 64) :: b64encode_groups rest

def b64encode (bytes : List Nat) : String :=
  ⟨b64encode_groups bytes⟩

/-! Text-to-speech endpoint (src/backend/main.py lines 176-201,
`text_to_speech_gcp`). -/

inductive SsmlVoiceGender where
  | NEUTRAL
  deriving DecidableEq, Repr

inductive AudioEncoding where
  | LINEAR16
  deriving DecidableEq, Repr

structure SynthesisInput where
  text : String
  deriving DecidableEq, Repr

structure VoiceSelectionParams where
  language_code : String
  ssml_gender : SsmlVoiceGender
  deriving DecidableEq, Repr

structure AudioConfig where
  audio_encoding : AudioEncoding
  sample_rate_hertz : Nat
  deriving DecidableEq, Repr

/-- The full argument record of the single tts_client.synthesize_speech call. -/
structure SynthesizeSpeechCall where
  input : SynthesisInput
  voice : VoiceSelectionParams
  audio_config : AudioConfig
  deriving DecidableEq, Repr

/-- The fixed language-name to region-code table (main.py lines 180-183). -/
def language_mapping : List (String × String) :=
  [("English", "en-IN"), ("Hindi", "hi-IN"), ("Gujarati", "gu-IN"),
   ("Kannada", "kn-IN"), ("Marathi", "mr-IN"), ("Tamil", "ta-IN"), ("Telugu", "te-IN")]

/-- Python dict.get with a default value, over an association list. -/
def dict_get : List (String × String) → String → String → String
  | [], _, default => default
  | (k, v) :: rest, key, default => if key = k then v else dict_get rest key default

/-- lang_code = language_mapping.get(request.language, "en-IN")  (main.py line 184). -/
def lang_code (language : String) : String :=
  dict_get language_mapping language "en-IN"

/-- The synthesize_speech call built from a TTS request (main.py lines 186-197):
the synthesis input text is request.text, the voice selects the mapped language
code with NEUTRAL gender, and the audio config is LINEAR16 at 24000 Hz. -/
def tts_synthesize_speech_call (request : TTSRequest) : SynthesizeSpeechCall :=
  { input := { text := request.text },
    voice := { language_code := lang_code request.language,
               ssml_gender := SsmlVoiceGender.NEUTRAL },
    audio_config := { audio_encoding := AudioEncoding.LINEAR16,
                      sample_rate_hertz := 24000 } }

/-- The MIME string returned on success (main.py line 199). -/
def tts_mime_type : String := "audio/L16;rate=24000"

/-- The /text-to-speech handler.  `audio_content` is the outcome of the
external synthesize_speech call: `Except.ok bytes` is the returned audio,
`Except.error e` models any exception raised inside the try block.  The
first component of the result is the argument record submitted to the
external service; the second is the HTTP outcome.  On success the handler
returns the JSON object (as an ordered key-value list) with base64 audio
and the MIME string; on exception it raises HTTPException(500) with the
formatted detail (main.py lines 198-201). -/
def text_to_speech_gcp (request : TTSRequest) (audio_content : Except String (List Nat)) :
    SynthesizeSpeechCall × Except HTTPException (List (String × String)) :=
  (tts_synthesize_speech_call request,
   match audio_content with
   | Except.error e => Except.error ⟨500, "Error in text-to-speech: " ++ e⟩
   | Except.ok bytes =>
       Except.ok [("audio_data", b64encode bytes), ("mime_type", tts_mime_type)])

/-- Modelled from the spec (refinement comparison only, not code of the
repository): the spec says the speech relay strips emphasis markup
characters from the input text; this removes the Markdown emphasis
characters asterisk and underscore. -/
def spec_strip_emphasis_markup (s : String) : String :=
  ⟨s.data.filter (fun c => !(c = '*' || c = '_'))⟩

/-! Chat endpoint (src/backend/main.py lines 139-174, `chat_with_document`). -/

/-- Vertex AI Content: a role and a list of text parts (main.py line 160). -/
structure Content where
  role : String
  parts : List String
  deriving DecidableEq, Repr

/-- history_content built from the request history (main.py line 160). -/
def history_content (request : ChatRequest) : List Content :=
  request.history.map (fun msg => ⟨msg.role, msg.parts.map (fun p => p.text)⟩)

/-- The system instruction f-string (main.py lines 143-158), with the
request language and document interpolated. -/
def chat_system_prompt (request : ChatRequest) : String :=
  "\n        You are a friendly and practical personal legal adviser based in Vadodara, Gujarat, India.\n        Your primary goal is to help users understand their legal documents.\n        Here are your rules:\n        1.  **Prioritize the Document:** If the user\x27s question can be answered from the provided document, base your answer ONLY on the document\x27s content.\n        2.  **Use General Knowledge When Needed:** If the document does not contain the answer, use your general knowledge to provide a helpful, concise response.\n        3.  **Handle Cost-Related Questions:** When asked about costs (like stamp duty, registration fees, rent agreement charges), provide estimated figures relevant to Gujarat, India. Always state that these are *estimates* and can vary, advising the user to confirm with local authorities.\n        4.  **Be Concise:** Keep your answers short and simple, ideally under 4 sentences. Do not repeat sentences.\n        5.  **Language:** Respond in "
    ++ request.language
    ++ ".\n        6.  **Formatting:** If you state the document doesn\x27t contain the information, format it as:\n            **This document does not mention that.**\n            Then, on the next line, provide your helpful general knowledge answer.\n        --- LEGAL DOCUMENT CONTEXT ---\n        "
    ++ request.document
    ++ "\n        ---\n        "

/-- One chat.send_message call: the message and its stream flag. -/
structure SendMessageCall where
  message : String
  stream : Bool
  deriving DecidableEq, Repr

/-- The external calls made by the chat handler on its non-exception path:
exactly one send_message of the question with stream=False (main.py line 164). -/
def chat_send_message_calls (request : ChatRequest) : List SendMessageCall :=
  [⟨request.question, false⟩]

/-- One run of the chat handler: the system instruction and history passed
to the model, the send_message calls made, and the HTTP outcome. -/
structure ChatHandlerRun where
  system_instruction : String
  history : List Content
  send_message_calls : List SendMessageCall
  result : Except HTTPException (List (String × String))

/-- The /chat-with-document handler.  `outcome` is the result of the external
send_message call: `Except.error e` models an exception anywhere in the try
block; `Except.ok (some t)` a response with a text attribute t;
`Except.ok none` a response without a text attribute (empty or blocked).
The result field is the JSON payload as an ordered key-value list, or the
raised HTTPException(500) (main.py lines 166-174). -/
def chat_with_document (request : ChatRequest) (outcome : Except String (Option String)) :
    ChatHandlerRun :=
  { system_instruction := chat_system_prompt request,
    history := history_content request,
    send_message_calls := chat_send_message_calls request,
    result :=
      match outcome with
      | Except.error _ => Except.error ⟨500, "An error occurred during the chat."⟩
      | Except.ok (some text) => Except.ok [("response", text)]
      | Except.ok none =>
          Except.ok [("response", "I\x27m sorry, I couldn\x27t generate a response for that.")] }

/-! Streaming analysis endpoints (src/backend/main.py lines 64-137). -/

/-- One chunk of the external streaming call; `text = none` models a chunk
without a text attribute (the hasattr check on main.py lines 90 and 131). -/
structure Chunk where
  text : Option String
  deriving DecidableEq, Repr

/-- One event of the external stream: either a produced chunk, or an
exception raised during iteration (or before it, when no chunk precedes). -/
inductive StreamEvent where
  | chunk (c : Chunk)
  | raise (message : String)
  deriving DecidableEq, Repr

/-- The texts of the chunks that carry a text attribute, in order. -/
def chunk_texts (chunks : List Chunk) : List String :=
  chunks.filterMap (fun c => c.text)

/-- The error line yielded by both streaming generators on exception
(main.py lines 95 and 136). -/
def analysis_error_line : String := "An error occurred during analysis."

/-- The body produced by the generator loop of both streaming endpoints
(main.py lines 89-95 and 130-136): yield each chunk text as it arrives;
the first exception ends the stream with the single error line, and
nothing after it is consumed. -/
def generate : List StreamEvent → List String
  | [] => []
  | StreamEvent.chunk c :: rest =>
      match c.text with
      | some t => t :: generate rest
      | none => generate rest
  | StreamEvent.raise _ :: _ => [analysis_error_line]

/-- Pieces of the analysis prompt f-string (main.py lines 70-87), split at
the three quoted section headers and at the two interpolation points.
Concatenated in `analysis_prompt` they give exactly the Python string. -/
def analysis_prompt_pre : String :=
  "\n            Act as a friendly personal legal adviser. Your goal is to help a common person understand this document.\n            Your response must be in "

def analysis_prompt_mid1 : String :=
  ". All explanations must be **very simple, short, and easy to understand.** Avoid legal jargon completely.\n            Your response must be in Markdown format and strictly follow this structure:\n            First, provide a \""

def analysis_prompt_mid2 : String :=
  "\".\n            Second, provide a \""

def analysis_prompt_mid3 : String :=
  "\".\n            Third, provide a \""

def analysis_prompt_mid4 : String :=
  "\".\n            Under \"Key Clauses Explained\", list each important clause. For each clause:\n            - Start the line with a `*`.\n            - Use a 🔴 emoji for high-risk, 🟡 for medium-risk, and 🟢 for safe clauses.\n            - Make the clause title bold (e.g., **Ending the Agreement**).\n            - After the title, provide a one-sentence explanation of what it means in plain language.\n            Under \"My Advice To You\", give short, practical, bullet-pointed advice that a regular person can easily act on.\n            Document:\n            ---\n            "

def analysis_prompt_tail : String :=
  "\n            ---\n            "

/-- The prompt built by /analyze-text-stream (main.py lines 70-87) for a
document and a language. -/
def analysis_prompt (document language : String) : String :=
  analysis_prompt_pre ++ language ++ analysis_prompt_mid1 ++ "### Summary"
    ++ analysis_prompt_mid2 ++ "### Key Clauses Explained"
    ++ analysis_prompt_mid3 ++ "### My Advice To You"
    ++ analysis_prompt_mid4 ++ document ++ analysis_prompt_tail

/-- The streaming HTTP response: media type and the list of yielded chunks. -/
structure StreamingResponse where
  media_type : String
  body : List String
  deriving DecidableEq, Repr

/-- The /analyze-text-stream handler: the first component is the prompt the
generator submits to the external model, the second the streaming response
whose body is produced by the generator loop over the external stream
events (main.py lines 64-96). -/
def analyze_document_stream (request : AnalysisRequest) (events : List StreamEvent) :
    String × StreamingResponse :=
  (analysis_prompt request.document request.language,
   ⟨"text/event-stream", generate events⟩)

/-- The instruction sent with the image for text extraction (main.py line 105). -/
def ocr_instruction : String :=
  "Extract all text from this image. Only return the extracted text."

/-- The second-stage prompt of /analyze-image-stream (main.py lines 121-128),
with the extracted document text interpolated.  Note the Python f-string is
an abbreviated placeholder, not the /analyze-text-stream prompt. -/
def image_analysis_prompt (document_text : String) : String :=
  "\n            Act as a friendly personal legal adviser...\n            # (Same prompt as /analyze-text-stream)\n            Document:\n            ---\n            "
    ++ document_text
    ++ "\n            ---\n            "

/-- Python str.strip() whitespace predicate. -/
def is_py_space (c : Char) : Bool :=
  c = ' ' || c = '\t' || c = '\n' || c = '\r' || c = '\x0b' || c = '\x0c'

/-- Python str.strip(): drop leading and trailing whitespace. -/
def py_strip (s : String) : String :=
  ⟨((s.data.dropWhile is_py_space).reverse.dropWhile is_py_space).reverse⟩

/-- The message streamed when OCR finds no text (main.py line 110). -/
def no_text_message : String :=
  "### Summary\n\nCould not find any text in the image. Please try another one."

/-- The message streamed when the image stage raises (main.py line 115). -/
def image_error_message : String :=
  "### Summary\n\nAn error occurred while processing the image."

/-- The /analyze-image-stream handler (main.py lines 98-137).  `ocr_text` is
the outcome of the first external call (base64 decode plus OCR): an
exception or the extracted text.  `events` is the external stream of the
second stage.  The first component of the result is the prompt submitted to
the second-stage model, `none` when that stage is never invoked; the second
is the streaming response.  The request language is never used (the
placeholder prompt does not mention it). -/
def analyze_image_stream (request : ImageRequest) (ocr_text : Except String String)
    (events : List StreamEvent) : Option String × StreamingResponse :=
  match ocr_text with
  | Except.error _ => (none, ⟨"text/event-stream", [image_error_message]⟩)
  | Except.ok document_text =>
      if (py_strip document_text).isEmpty then
        (none, ⟨"text/event-stream", [no_text_message]⟩)
      else
        (some (image_analysis_prompt document_text),
         ⟨"text/event-stream", generate events⟩)

/-- Ordered containment of three patterns in a string: the string splits as
a ++ h1 ++ b ++ h2 ++ c ++ h3 ++ d. -/
def ContainsInOrder3 (s h1 h2 h3 : String) : Prop :=
  ∃ a b c d : String, s = a ++ h1 ++ b ++ h2 ++ c ++ h3 ++ d

/-- Boolean check that the first list is an initial segment of the second. -/
def starts_with_chars : List Char → List Char → Bool
  | [], _ => true
  | _ :: _, [] => false
  | p :: ps, c :: cs => p = c && starts_with_chars ps cs

/-- Boolean substring search over character lists. -/
def contains_chars (pat : List Char) : List Char → Bool
  | [] => pat.isEmpty
  | c :: cs => starts_with_chars pat (c :: cs) || contains_chars pat cs

/-- Boolean substring test on strings. -/
def contains_str (s pat : String) : Bool :=
  contains_chars pat.data s.data

/-! Helper lemmas. -/

/-- Python dict.get returns the default when the key is absent. -/
theorem dict_get_of_not_mem_keys (l : List (String × String)) (key d : String)
    (h : key ∉ l.map Prod.fst) : dict_get l key d = d := by
  induction l with
  | nil => rfl
  | cons p rest ih =>
      rcases p with ⟨k, v⟩
      simp only [List.map_cons, List.mem_cons, not_or] at h
      simp only [dict_get, if_neg h.1]
      exact ih h.2

/-- The generator loop, fed chunks and then an exception, yields the chunk
texts followed by the single error line and consumes nothing further. -/
theorem generate_map_chunk_append_raise (pre : List Chunk) (msg : String)
    (rest : List StreamEvent) :
    generate (pre.map StreamEvent.chunk ++ StreamEvent.raise msg :: rest)
      = chunk_texts pre ++ [analysis_error_line] := by
  induction pre with
  | nil => rfl
  | cons c cs ih =>
      cases h : c.text with
      | none => simp [generate, chunk_texts, List.filterMap_cons, h, ih]
      | some t => simp [generate, chunk_texts, List.filterMap_cons, h, ih]

/-! Claim theorems. -/

/-- C1 counterexample: the claim that the synthesized input is the request
text with markup characters removed fails at the request text "*Hello*":
the handler submits the text verbatim, asterisks included. -/
theorem tts_strip_claim_counterexample :
    ¬ ((text_to_speech_gcp ⟨"*Hello*", "Hindi"⟩ (Except.ok [72, 105])).1.input.text
        = spec_strip_emphasis_markup "*Hello*") := by decide

/-- C1 amended: for every TTS request, the relay submits the request text
unchanged to the external speech service; no markup characters are
removed. -/
theorem tts_input_is_request_text (request : TTSRequest)
    (audio_content : Except String (List Nat)) :
    (text_to_speech_gcp request audio_content).1.input.text = request.text := rfl

set_option maxRecDepth 100000 in
/-- C2: at the failing input, the second-stage prompt of the image relay is
not the prompt the text-analysis relay builds for the extracted text: the
image relay interpolates the text into an abbreviated placeholder that does
not even contain the Key Clauses Explained header. -/
theorem image_prompt_placeholder_differs :
    image_analysis_prompt "Rent is due on the 1st."
        ≠ analysis_prompt "Rent is due on the 1st." "English"
    ∧ contains_str (analysis_prompt "Rent is due on the 1st." "English")
        "### Key Clauses Explained" = true
    ∧ contains_str (image_analysis_prompt "Rent is due on the 1st.")
        "### Key Clauses Explained" = false :=
  ⟨by decide, by decide, by decide⟩

/-- C3: whenever the OCR stage succeeds with text whose Python strip is
empty, the image relay streams exactly the single no-text message, the
analysis stage is never invoked (no second prompt exists), and the external
stream events are never consumed. -/
theorem image_blank_text_short_circuit (request : ImageRequest) (extracted : String)
    (events : List StreamEvent) (h : (py_strip extracted).isEmpty = true) :
    analyze_image_stream request (Except.ok extracted) events
      = (none, ⟨"text/event-stream", [no_text_message]⟩) := by
  simp [analyze_image_stream, h]

/-- C3 witness at a concrete whitespace-only extraction. -/
theorem image_blank_text_short_circuit_witness :
    analyze_image_stream ⟨"aW1n", "English"⟩ (Except.ok "  \n ")
        [StreamEvent.chunk ⟨some "ignored"⟩]
      = (none, ⟨"text/event-stream", [no_text_message]⟩) :=
  image_blank_text_short_circuit ⟨"aW1n", "English"⟩ "  \n "
    [StreamEvent.chunk ⟨some "ignored"⟩] (by decide)

/-- C4 counterexample: with a non-empty document and language, an external
model stream that answers "ok" gives a concatenated stream body that does
not contain the three section headers; the code nowhere enforces them on
the relayed output. -/
theorem analysis_stream_headers_counterexample :
    ¬ ContainsInOrder3
        (String.join (analyze_document_stream ⟨"Rent is due on the 1st.", "English"⟩
            [StreamEvent.chunk ⟨some "ok"⟩]).2.body)
        "### Summary" "### Key Clauses Explained" "### My Advice To You" := by
  intro h
  obtain ⟨a, b, c, d, hEq⟩ := h
  have hbody : String.join (analyze_document_stream ⟨"Rent is due on the 1st.", "English"⟩
      [StreamEvent.chunk ⟨some "ok"⟩]).2.body = "ok" := rfl
  rw [hbody] at hEq
  have hlen := congrArg String.length hEq
  rw [show ("ok" : String).length = 2 from rfl] at hlen
  simp only [String.length_append] at hlen
  rw [show ("### Summary" : String).length = 11 from rfl,
      show ("### Key Clauses Explained" : String).length = 25 from rfl,
      show ("### My Advice To You" : String).length = 20 from rfl] at hlen
  omega

/-- C4 amended: for all non-empty document and language inputs, the prompt
the analysis relay submits to the external model contains the three fixed
Markdown section headers, in order; the stream body itself is the external
model output relayed verbatim. -/
theorem analysis_prompt_headers_in_order (document language : String)
    (hdoc : document ≠ "") (hlang : language ≠ "") :
    ContainsInOrder3 (analysis_prompt document language)
      "### Summary" "### Key Clauses Explained" "### My Advice To You" := by
  refine ⟨analysis_prompt_pre ++ language ++ analysis_prompt_mid1, analysis_prompt_mid2,
    analysis_prompt_mid3, analysis_prompt_mid4 ++ document ++ analysis_prompt_tail, ?_⟩
  simp only [analysis_prompt, String.append_assoc]

/-- C4 witness at a concrete non-empty document and language. -/
theorem analysis_prompt_headers_in_order_witness :
    ContainsInOrder3 (analysis_prompt "Rent is due on the 1st." "English")
      "### Summary" "### Key Clauses Explained" "### My Advice To You" :=
  analysis_prompt_headers_in_order "Rent is due on the 1st." "English"
    (by decide) (by decide)

/-- C5: for both streaming endpoints, if the external streaming call raises
after producing any chunks, the relayed body is the chunk texts produced so
far followed by exactly the single error line, and the stream ends there
(nothing after the exception is consumed); the body is a finite list in
every case, so the stream always terminates. -/
theorem stream_exception_single_error_line :
    (∀ (request : AnalysisRequest) (pre : List Chunk) (msg : String)
        (rest : List StreamEvent),
        (analyze_document_stream request
            (pre.map StreamEvent.chunk ++ StreamEvent.raise msg :: rest)).2.body
          = chunk_texts pre ++ [analysis_error_line])
    ∧ (∀ (request : ImageRequest) (extracted : String) (pre : List Chunk) (msg : String)
        (rest : List StreamEvent),
        (py_strip extracted).isEmpty = false →
        (analyze_image_stream request (Except.ok extracted)
            (pre.map StreamEvent.chunk ++ StreamEvent.raise msg :: rest)).2.body
          = chunk_texts pre ++ [analysis_error_line]) := by
  constructor
  · intro request pre msg rest
    exact generate_map_chunk_append_raise pre msg rest
  · intro request extracted pre msg rest hne
    simp only [analyze_image_stream, hne, Bool.false_eq_true, if_false]
    exact generate_map_chunk_append_raise pre msg rest

/-- C5 witness: a stream that raises after one chunk, and an image-stage
stream that raises immediately. -/
theorem stream_exception_single_error_line_witness :
    (analyze_document_stream ⟨"Rent is due on the 1st.", "English"⟩
        ([Chunk.mk (some "partial")].map StreamEvent.chunk
          ++ StreamEvent.raise "boom" :: [])).2.body
      = chunk_texts [Chunk.mk (some "partial")] ++ [analysis_error_line]
    ∧ (analyze_image_stream ⟨"aW1n", "English"⟩ (Except.ok "Lease text")
        (([] : List Chunk).map StreamEvent.chunk
          ++ StreamEvent.raise "boom" :: [])).2.body
      = chunk_texts [] ++ [analysis_error_line] :=
  ⟨stream_exception_single_error_line.1 ⟨"Rent is due on the 1st.", "English"⟩
      [Chunk.mk (some "partial")] "boom" [],
   stream_exception_single_error_line.2 ⟨"aW1n", "English"⟩ "Lease text" [] "boom" []
      (by decide)⟩

/-- C6: whenever the chat handler returns a success payload, that payload
has exactly the one key response, and the handler made exactly one
send_message call, with the stream flag false. -/
theorem chat_single_response_field (request : ChatRequest)
    (outcome : Except String (Option String)) (payload : List (String × String))
    (h : (chat_with_document request outcome).result = Except.ok payload) :
    payload.map Prod.fst = ["response"]
    ∧ (chat_with_document request outcome).send_message_calls.length = 1
    ∧ ∀ call ∈ (chat_with_document request outcome).send_message_calls,
        call.stream = false := by
  refine ⟨?_, rfl, ?_⟩
  · rcases outcome with e | o
    · simp [chat_with_document] at h
    · rcases o with _ | t
      · simp only [chat_with_document, Except.ok.injEq] at h
        rw [← h]
        rfl
      · simp only [chat_with_document, Except.ok.injEq] at h
        rw [← h]
        rfl
  · intro call hc
    simp only [chat_with_document, chat_send_message_calls, List.mem_singleton] at hc
    rw [hc]

/-- C6 witness at a concrete successful chat exchange. -/
theorem chat_single_response_field_witness :
    ([("response", "Rent is due on the first.")] : List (String × String)).map Prod.fst
        = ["response"]
    ∧ (chat_with_document ⟨"doc", [], "When is rent due?", "English"⟩
        (Except.ok (some "Rent is due on the first."))).send_message_calls.length = 1
    ∧ ∀ call ∈ (chat_with_document ⟨"doc", [], "When is rent due?", "English"⟩
        (Except.ok (some "Rent is due on the first."))).send_message_calls,
        call.stream = false :=
  chat_single_response_field ⟨"doc", [], "When is rent due?", "English"⟩
    (Except.ok (some "Rent is due on the first."))
    [("response", "Rent is due on the first.")] rfl

/-- C7: every language name outside the fixed mapping table falls back to
the default region code en-IN, and Hindi maps to hi-IN. -/
theorem tts_language_default_and_hindi :
    (∀ language : String, language ∉ language_mapping.map Prod.fst →
        lang_code language = "en-IN")
    ∧ lang_code "Hindi" = "hi-IN" :=
  ⟨fun language h => dict_get_of_not_mem_keys language_mapping language "en-IN" h, rfl⟩

/-- C7 witness: French is not in the table and maps to the default. -/
theorem tts_language_default_and_hindi_witness :
    lang_code "French" = "en-IN" ∧ lang_code "Hindi" = "hi-IN" :=
  ⟨tts_language_default_and_hindi.1 "French" (by decide),
   tts_language_default_and_hindi.2⟩

/-- C8: every exception in the chat handler becomes HTTP 500 with its fixed
detail text, and every exception in the TTS handler becomes HTTP 500 with
the formatted detail text; neither propagates the exception. -/
theorem errors_become_http_500 :
    (∀ (request : ChatRequest) (e : String),
        (chat_with_document request (Except.error e)).result
          = Except.error ⟨500, "An error occurred during the chat."⟩)
    ∧ (∀ (request : TTSRequest) (e : String),
        (text_to_speech_gcp request (Except.error e)).2
          = Except.error ⟨500, "Error in text-to-speech: " ++ e⟩) :=
  ⟨fun _ _ => rfl, fun _ _ => rfl⟩

/-- C9: every successful TTS response carries a mime_type field whose
stated rate equals the sample rate of the audio config submitted to the
synthesis service. -/
theorem tts_mime_matches_sample_rate (request : TTSRequest) (bytes : List Nat)
    (payload : List (String × String))
    (h : (text_to_speech_gcp request (Except.ok bytes)).2 = Except.ok payload) :
    payload.lookup "mime_type"
      = some ("audio/L16;rate="
          ++ toString
              (text_to_speech_gcp request
                (Except.ok bytes)).1.audio_config.sample_rate_hertz) := by
  simp only [text_to_speech_gcp, Except.ok.injEq] at h
  rw [← h]
  have h1 : List.lookup "mime_type"
      ([("audio_data", b64encode bytes), ("mime_type", tts_mime_type)]
        : List (String × String)) = some tts_mime_type := by
    simp [List.lookup]
  have h2 : (text_to_speech_gcp request
      (Except.ok bytes)).1.audio_config.sample_rate_hertz = 24000 := rfl
  rw [h1, h2]
  decide

/-- C9 witness at a concrete request and audio payload. -/
theorem tts_mime_matches_sample_rate_witness :
    ([("audio_data", b64encode [0, 1, 2]), ("mime_type", tts_mime_type)]
        : List (String × String)).lookup "mime_type"
      = some ("audio/L16;rate="
          ++ toString
              (text_to_speech_gcp ⟨"Hello", "Hindi"⟩
                (Except.ok [0, 1, 2])).1.audio_config.sample_rate_hertz) :=
  tts_mime_matches_sample_rate ⟨"Hello", "Hindi"⟩ [0, 1, 2]
    [("audio_data", b64encode [0, 1, 2]), ("mime_type", tts_mime_type)] rfl

/-- C10: a chat response without a text payload and without an exception
yields a successful payload whose response field is the fixed apology
message, not an HTTP error. -/
theorem chat_no_text_apology (request : ChatRequest) :
    (chat_with_document request (Except.ok none)).result
      = Except.ok [("response", "I\x27m sorry, I couldn\x27t generate a response for that.")] :=
  rfl

end LegalEase
